import Mathlib

/-!
Verification of the banking application's auth/session, ledger and PII
encryption subsystems, shallowly embedded from the TypeScript sources
(`src/server/routers/account.ts`, the auth router, and
`src/lib/encryption/encryption.ts`).

Conventions of the embedding:
* rows of the relational store are Lean structures, tables are lists;
* JavaScript `Date` timestamps are epoch milliseconds (`Int`);
* decimal money amounts are rationals; `Math.round` is `jsRound` below
  (half-up rounding, agreeing with Mathlib's `round`);
* external collaborators (bcrypt's verify, jwt signing, the AES-256-GCM
  primitive, PBKDF2) are parameters of the embedded operations, so that
  the theorems are about the repository's own logic around them.
-/

namespace Bank

/-- Epoch-millisecond timestamps, as JavaScript `Date` values. -/
abbrev Millis := Int

/-- JavaScript `Math.round`: the closest integer, ties rounding toward
positive infinity, i.e. `⌊x + 1/2⌋` (ECMA-262).  The monetary values the
handlers round are exact in binary floating point at the scale involved, so
the rational model is faithful on them. -/
def jsRound (x : ℚ) : ℤ := ⌊x + 1 / 2⌋

/-- `expiresIn: "7d"` / `expiresAt.setDate(getDate() + 7)` in the auth router. -/
def sevenDaysMs : Millis := 7 * 24 * 60 * 60 * 1000

/-- The fixed 5-minute session-expiry buffer (spec section 4.2 / section 6). -/
def fiveMinutesMs : Millis := 5 * 60 * 1000

/-- A stored `users` row, with the columns the signup mutation writes. -/
structure User where
  id : Nat
  email : String
  password : String
  firstName : String
  lastName : String
  phoneNumber : String
  dateOfBirth : String
  ssn : String
  address : String
  city : String
  state : String
  zipCode : String
  deriving Repr, DecidableEq

/-- A stored `sessions` row: `{userId, token, expiresAt}`. -/
structure SessionRow where
  userId : Nat
  token : String
  expiresAt : Millis
  deriving Repr, DecidableEq

/-- A stored `accounts` row, as created by `createAccount`. -/
structure Account where
  id : Nat
  userId : Nat
  accountNumber : String
  accountType : String
  balance : ℚ
  status : String
  deriving Repr, DecidableEq

/-- A stored `transactions` row, as inserted by `fundAccount`. -/
structure Transaction where
  id : Nat
  accountId : Nat
  type : String
  amount : ℚ
  description : String
  status : String
  deriving Repr, DecidableEq

/-- The relational store: the four tables the core operations touch. -/
structure DB where
  users : List User
  sessionRows : List SessionRow
  accounts : List Account
  transactions : List Transaction
  deriving Repr, DecidableEq

/-- `db.select().from(users).where(eq(users.email, email)).get()`. -/
def findUserByEmail (db : DB) (email : String) : Option User :=
  db.users.find? (fun u => u.email == email)

/-- The user object the auth handlers return to the client:
`{ ...user, password: undefined }` (spread of every stored column, with the
password hash overwritten by `undefined`). -/
structure PublicUser where
  id : Nat
  email : String
  password : Option String
  firstName : String
  lastName : String
  phoneNumber : String
  dateOfBirth : String
  ssn : String
  address : String
  city : String
  state : String
  zipCode : String
  deriving Repr, DecidableEq

/-- `{ ...user, password: undefined }` from the signup and login handlers. -/
def sanitizeUser (u : User) : PublicUser :=
  { id := u.id
    email := u.email
    password := none
    firstName := u.firstName
    lastName := u.lastName
    phoneNumber := u.phoneNumber
    dateOfBirth := u.dateOfBirth
    ssn := u.ssn
    address := u.address
    city := u.city
    state := u.state
    zipCode := u.zipCode }

/-- Successful result of `signup` / `login`: `{ user, token }`. -/
structure AuthSuccess where
  user : PublicUser
  token : String
  deriving Repr, DecidableEq

/-- The `login` mutation of the auth router, from the lookup of the user by
(normalized) email to the session insert.  External collaborators are
parameters: `verify` is `bcrypt.compare`, `newToken` is the token produced by
`jwt.sign({userId}, secret, {expiresIn: "7d"})`, `now` the current time.  On
success the handler deletes every `sessions` row of the user, inserts one new
row with `expiresAt = now + 7 days`, and returns the sanitized user with the
token. -/
def login (db : DB) (email pw : String) (verify : String → String → Bool)
    (newToken : String) (now : Millis) : DB × Except String AuthSuccess :=
  match findUserByEmail db email with
  | none => (db, .error "Invalid credentials")
  | some user =>
    if verify pw user.password then
      let afterDelete : DB :=
        { db with sessionRows := db.sessionRows.filter (fun s => s.userId != user.id) }
      let newRow : SessionRow :=
        { userId := user.id, token := newToken, expiresAt := now + sevenDaysMs }
      let afterInsert : DB :=
        { afterDelete with sessionRows := afterDelete.sessionRows ++ [newRow] }
      (afterInsert, .ok { user := sanitizeUser user, token := newToken })
    else
      (db, .error "Invalid credentials")

/-- Next auto-increment id for the `users` table. -/
def nextUserId (db : DB) : Nat :=
  (db.users.map (fun u => u.id)).foldr max 0 + 1

/-- The column values carried by a signup request after schema validation. -/
structure SignupInput where
  email : String
  password : String
  firstName : String
  lastName : String
  phoneNumber : String
  dateOfBirth : String
  ssn : String
  address : String
  city : String
  state : String
  zipCode : String
  deriving Repr, DecidableEq

/-- The `signup` mutation, from the duplicate-email check to the session
insert.  `hash` models `bcrypt.hash(·, 10)`, `encSSN` the call to
`encryptSSN`, `newToken` the signed jwt.  The handler inserts the user with
the hashed password and encrypted ssn, re-fetches it, creates a session and
returns `{ ...user, password: undefined }` with the token. -/
def signup (db : DB) (input : SignupInput) (hash : String → String)
    (encSSN : String → String) (newToken : String) (now : Millis) :
    DB × Except String AuthSuccess :=
  match findUserByEmail db input.email with
  | some _ => (db, .error "User already exists")
  | none =>
    let newUser : User :=
      { id := nextUserId db
        email := input.email
        password := hash input.password
        firstName := input.firstName
        lastName := input.lastName
        phoneNumber := input.phoneNumber
        dateOfBirth := input.dateOfBirth
        ssn := encSSN input.ssn
        address := input.address
        city := input.city
        state := input.state
        zipCode := input.zipCode }
    let afterInsert : DB := { db with users := db.users ++ [newUser] }
    match findUserByEmail afterInsert input.email with
    | none => (afterInsert, .error "Failed to create user")
    | some user =>
      let newRow : SessionRow :=
        { userId := user.id, token := newToken, expiresAt := now + sevenDaysMs }
      let afterSession : DB :=
        { afterInsert with sessionRows := afterInsert.sessionRows ++ [newRow] }
      (afterSession, .ok { user := sanitizeUser user, token := newToken })

/-- Result shape of the `logout` mutation: `{ success, message }`. -/
structure LogoutResult where
  success : Bool
  message : String
  deriving Repr, DecidableEq

/-- The `logout` mutation.  `ctxUserPresent` is whether `ctx.user` resolved,
`token` the session cookie value (if any).  When a user and token are present
and a matching `sessions` row exists, the handler deletes it and re-reads to
confirm absence; `success` is `deleted || !ctx.user` and the message is chosen
by `deleted ? "Logged out successfully" : ctx.user ? "Failed to log out -
session may still be active" : "No active session"`. -/
def logout (db : DB) (ctxUserPresent : Bool) (token : Option String) :
    DB × LogoutResult :=
  let step : DB × Bool :=
    if ctxUserPresent then
      match token with
      | some t =>
        match db.sessionRows.find? (fun s => s.token == t) with
        | some _ =>
          let afterDelete : DB :=
            { db with sessionRows := db.sessionRows.filter (fun s => s.token != t) }
          let verifyDeleted := afterDelete.sessionRows.find? (fun s => s.token == t)
          (afterDelete, verifyDeleted.isNone)
        | none => (db, false)
      | none => (db, false)
    else (db, false)
  let deleted := step.2
  (step.1,
    { success := deleted || !ctxUserPresent
      message :=
        if deleted then "Logged out successfully"
        else if ctxUserPresent then "Failed to log out - session may still be active"
        else "No active session" })

/-- Modelled from the spec: the session-validation middleware (`createContext`
in `src/server/trpc.ts`) is not among the provided sources — only its test
suite (`auth.password.test.ts`, PERF-403) is.  Following spec section 4.2:
the token layer (signature and embedded expiry) is checked first, modelled by
`tokenValid`; then the `sessions` row is looked up by token; if absent the
request is unauthenticated; otherwise `bufferedNow = now + 5 minutes` and if
`session.expiresAt <= bufferedNow` the row is deleted and the request is
unauthenticated; otherwise the principal (the row's `userId`) is resolved. -/
def validateSession (db : DB) (tokenValid : Bool) (token : String)
    (now : Millis) : DB × Option Nat :=
  if !tokenValid then (db, none)
  else
    match db.sessionRows.find? (fun s => s.token == token) with
    | none => (db, none)
    | some srow =>
      let bufferedNow := now + fiveMinutesMs
      if srow.expiresAt ≤ bufferedNow then
        ({ db with sessionRows := db.sessionRows.filter (fun s => s.token != token) },
          none)
      else
        (db, some srow.userId)

/-- Next auto-increment id for the `transactions` table. -/
def nextTransactionId (db : DB) : Nat :=
  (db.transactions.map (fun t => t.id)).foldr max 0 + 1

/-- Next auto-increment id for the `accounts` table. -/
def nextAccountId (db : DB) : Nat :=
  (db.accounts.map (fun a => a.id)).foldr max 0 + 1

/-- Successful result of `fundAccount`: `{ transaction, newBalance }`. -/
structure FundSuccess where
  transaction : Transaction
  newBalance : ℚ
  deriving Repr, DecidableEq

/-- The `fundAccount` mutation of the account router (second revision of
`src/server/routers/account.ts`, lines 340-450).  `sourceOk` is the verdict of
the zod `superRefine` on the funding source (card length/checksum/brand via the
external `card-validator` package, or bank account plus 9-digit routing
number); the zod schema's only constraint on the amount is
`z.number().positive()`.  After validating ownership and `active` status the
handler inserts a completed deposit `transactions` row, recomputes the balance
in integer cents (`Math.round(value * 100)`, summed as integers, divided back
by 100) and persists it. -/
def fundAccount (db : DB) (userId accountId : Nat) (amount : ℚ)
    (sourceOk : Bool) (sourceType : String) : DB × Except String FundSuccess :=
  if !sourceOk then (db, .error "Input validation failed")
  else if amount ≤ 0 then (db, .error "Input validation failed")
  else
    match db.accounts.find? (fun a => a.id == accountId && a.userId == userId) with
    | none => (db, .error "Account not found")
    | some account =>
      if account.status != "active" then (db, .error "Account is not active")
      else
        let tx : Transaction :=
          { id := nextTransactionId db
            accountId := accountId
            type := "deposit"
            amount := amount
            description := "Funding from " ++ sourceType
            status := "completed" }
        let afterInsert : DB := { db with transactions := db.transactions ++ [tx] }
        let currentBalanceInCents : Int := jsRound (account.balance * 100)
        let amountInCents : Int := jsRound (amount * 100)
        let newBalanceInCents : Int := currentBalanceInCents + amountInCents
        let newBalance : ℚ := (newBalanceInCents : ℚ) / 100
        let afterUpdate : DB :=
          { afterInsert with accounts := afterInsert.accounts.map (fun a =>
              if a.id == accountId then { a with balance := newBalance } else a) }
        (afterUpdate, .ok { transaction := tx, newBalance := newBalance })

/-- `n` sequential `fundAccount` calls with the same arguments (the loop of
the "maintains precise balances after many deposits" test). -/
def fundRepeat (db : DB) (userId accountId : Nat) (amount : ℚ) : Nat → DB
  | 0 => db
  | n + 1 => (fundAccount (fundRepeat db userId accountId amount n)
      userId accountId amount true "card").1

/-- The `createAccount` mutation (second revision, lines 258-329): duplicate
account-type check, insert of the new zero-balance `active` row, immediate
re-fetch by account number, and — if the re-fetch comes back empty — a
compensating delete of the orphaned row followed by an internal error.
`accountNumber` is the (collision-checked) random number produced by the
generation loop; `refetchOk` models the outcome of the re-fetch read (the
PERF-401 test simulates its failure by mocking `db.select`). -/
def createAccount (db : DB) (userId : Nat) (accountType : String)
    (accountNumber : String) (refetchOk : Bool) : DB × Except String Account :=
  if (db.accounts.find? (fun a => a.userId == userId && a.accountType == accountType)).isSome
  then (db, .error ("You already have a " ++ accountType ++ " account"))
  else
    let newAcc : Account :=
      { id := nextAccountId db
        userId := userId
        accountNumber := accountNumber
        accountType := accountType
        balance := 0
        status := "active" }
    let afterInsert : DB := { db with accounts := db.accounts ++ [newAcc] }
    let fetched : Option Account :=
      if refetchOk then
        afterInsert.accounts.find? (fun a => a.accountNumber == accountNumber)
      else none
    match fetched with
    | some account => (afterInsert, .ok account)
    | none =>
      let afterCleanup : DB :=
        { afterInsert with accounts :=
            afterInsert.accounts.filter (fun a => a.accountNumber != accountNumber) }
      (afterCleanup,
        .error "Account was created but could not be retrieved. Please try again.")

/-!
Interleaving model of concurrent `fundAccount` calls on one account.

The mutation body performs four awaited storage operations in order: read the
account row (capturing its balance), insert the deposit transaction, select
the just-inserted transaction, and write the recomputed balance.  Each awaited
operation is atomic, but between two of them the JavaScript runtime may run
the steps of any other in-flight call — nothing in the code serializes the
read-modify-write per account.  A schedule is the sequence of call indices
whose next pending step runs.
-/

/-- Per-call progress: the next step to run (0 = read account, 1 = insert
transaction, 2 = select latest transaction, 3 = write balance, 4 = done) and
the balance captured by the read. -/
structure CallState where
  pc : Nat
  captured : ℚ
  deriving Repr, DecidableEq

/-- Shared state of the single funded account: its balance and how many
transaction rows exist for it, plus the progress of each in-flight call. -/
structure ConcState where
  balance : ℚ
  txCount : Nat
  calls : List CallState
  deriving Repr, DecidableEq

/-- Run the next pending atomic storage step of call `i` (all calls deposit
the same `amount`).  The balance written by step 3 is computed, exactly as in
the code, from the balance captured by that call's own earlier read. -/
def stepCall (amount : ℚ) (s : ConcState) (i : Nat) : ConcState :=
  match s.calls.get? i with
  | none => s
  | some c =>
    match c.pc with
    | 0 => { s with calls := s.calls.set i { c with pc := 1, captured := s.balance } }
    | 1 => { s with txCount := s.txCount + 1, calls := s.calls.set i { c with pc := 2 } }
    | 2 => { s with calls := s.calls.set i { c with pc := 3 } }
    | 3 => { s with
        balance := ((jsRound (c.captured * 100) + jsRound (amount * 100) : Int) : ℚ) / 100
        calls := s.calls.set i { c with pc := 4 } }
    | _ => s

/-- Execute a schedule (a list of call indices) from a state. -/
def runSched (amount : ℚ) (s : ConcState) : List Nat → ConcState
  | [] => s
  | i :: rest => runSched amount (stepCall amount s i) rest

/-- A fresh account with `n` concurrent `fundAccount` calls about to start. -/
def freshConc (n : Nat) : ConcState :=
  { balance := 0, txCount := 0, calls := List.replicate n { pc := 0, captured := 0 } }

/-!
PII encryption (`src/lib/encryption/encryption.ts`).

Byte sequences are `List (Fin 256)`.  The SSN plaintext is modelled as its
UTF-8 byte sequence (Node's mutually inverse utf8 transcoding at the
`cipher.update`/`decipher.update` boundary is external).  The AES-256-GCM
primitive (`crypto.createCipheriv`/`createDecipheriv`) and PBKDF2
(`crypto.pbkdf2Sync`) are external collaborators, passed as parameters; the
theorems are about the repository's wrapper: key/salt sourcing from the
environment, hex encoding, the `iv:ciphertext:tag` framing and its parsing.
-/

/-- A byte. -/
abbrev Byte := Fin 256

/-- A byte sequence (Node `Buffer`). -/
abbrev Bytes := List Byte

/-- Lowercase hex digit for a nibble, as `Buffer.toString("hex")` emits. -/
def hexDigitChar (n : Fin 16) : Char :=
  if n.val < 10 then Char.ofNat (48 + n.val) else Char.ofNat (87 + n.val)

/-- Value of a hex digit character (`Buffer.from(·, "hex")` accepts both
cases); `none` on a non-hex character. -/
def hexVal (c : Char) : Option (Fin 16) :=
  if h : 48 ≤ c.toNat ∧ c.toNat ≤ 57 then some ⟨c.toNat - 48, by omega⟩
  else if h : 97 ≤ c.toNat ∧ c.toNat ≤ 102 then some ⟨c.toNat - 87, by omega⟩
  else if h : 65 ≤ c.toNat ∧ c.toNat ≤ 70 then some ⟨c.toNat - 55, by omega⟩
  else none

/-- `buffer.toString("hex")`: two lowercase hex digits per byte. -/
def hexEncode : Bytes → List Char
  | [] => []
  | b :: rest =>
    hexDigitChar ⟨b.val / 16, by omega⟩ :: hexDigitChar ⟨b.val % 16, by omega⟩ ::
      hexEncode rest

/-- `Buffer.from(s, "hex")`: decode pairs of hex digits, stopping (without
error) at the first invalid or incomplete pair, as Node does. -/
def hexDecode : List Char → Bytes
  | c1 :: c2 :: rest =>
    match hexVal c1, hexVal c2 with
    | some hi, some lo => ⟨16 * hi.val + lo.val, by omega⟩ :: hexDecode rest
    | _, _ => []
  | _ => []

/-- JavaScript `String.prototype.split` with a single-character separator:
every occurrence splits, empty pieces are kept. -/
def splitOnChar (sep : Char) : List Char → List (List Char)
  | [] => [[]]
  | c :: cs =>
    if c = sep then [] :: splitOnChar sep cs
    else
      match splitOnChar sep cs with
      | [] => [[c]]
      | g :: gs => (c :: g) :: gs

/-- The external authenticated cipher (`aes-256-gcm` through
`createCipheriv`/`createDecipheriv`): encryption maps key, iv and plaintext to
ciphertext and auth tag; decryption authenticates and inverts it.  `enc_dec`
is the primitive's documented functional contract (decrypting with the same
key and iv and the produced tag recovers the plaintext). -/
structure AEAD where
  enc : Bytes → Bytes → Bytes → Bytes × Bytes
  dec : Bytes → Bytes → Bytes → Bytes → Option Bytes
  enc_dec : ∀ key iv pt, dec key iv (enc key iv pt).1 (enc key iv pt).2 = some pt

/-- The process environment as the encryption module reads it:
`process.env.ENCRYPTION_KEY` and `process.env.ENCRYPTION_SALT` (the salt
already decoded from hex/base64; its length/format validation is orthogonal
to the claims treated here). -/
structure CryptoEnv where
  encryptionKey : Option String
  encryptionSalt : Option Bytes

/-- `getSalt()`: the environment salt when present, otherwise a fresh
`crypto.randomBytes(64)` value (modelled by the `freshRandomSalt` argument —
note a NEW random salt on every call when the environment variable is
absent). -/
def getSalt (env : CryptoEnv) (freshRandomSalt : Bytes) : Bytes :=
  match env.encryptionSalt with
  | some s => s
  | none => freshRandomSalt

/-- `getEncryptionKey()`: read `ENCRYPTION_KEY`, compute the salt, fail if the
key is absent, otherwise derive the key by PBKDF2 (`kdf`, deterministic in
key material and salt). -/
def getEncryptionKey (kdf : String → Bytes → Bytes) (env : CryptoEnv)
    (freshRandomSalt : Bytes) : Except String Bytes :=
  let salt := getSalt env freshRandomSalt
  match env.encryptionKey with
  | none => .error "ENCRYPTION_KEY environment variable is not set"
  | some key => .ok (kdf key salt)

/-- `encryptSSN`: reject empty input, derive the key, encrypt under a fresh
random `iv` (argument), and emit `ivHex:cipherHex:tagHex`. -/
def encryptSSN (A : AEAD) (kdf : String → Bytes → Bytes) (env : CryptoEnv)
    (freshRandomSalt iv : Bytes) (ssn : Bytes) : Except String (List Char) :=
  if ssn.isEmpty then .error "SSN must be a non-empty string"
  else
    match getEncryptionKey kdf env freshRandomSalt with
    | .error e => .error e
    | .ok key =>
      let ct := (A.enc key iv ssn).1
      let tag := (A.enc key iv ssn).2
      .ok (hexEncode iv ++ ':' :: hexEncode ct ++ ':' :: hexEncode tag)

/-- `decryptSSN`: reject empty input; split on `:`; reject unless exactly 3
parts (only the COUNT is checked); derive the key; hex-decode the segments
and run authenticated decryption, failing on any tag mismatch. -/
def decryptSSN (A : AEAD) (kdf : String → Bytes → Bytes) (env : CryptoEnv)
    (freshRandomSalt : Bytes) (field : List Char) : Except String Bytes :=
  if field.isEmpty then .error "Encrypted SSN must be a non-empty string"
  else
    let parts := splitOnChar ':' field
    if parts.length ≠ 3 then .error "Invalid encrypted SSN format"
    else
      let ivHex := parts.getD 0 []
      let encHex := parts.getD 1 []
      let tagHex := parts.getD 2 []
      match getEncryptionKey kdf env freshRandomSalt with
      | .error e => .error e
      | .ok key =>
        let iv := hexDecode ivHex
        let tag := hexDecode tagHex
        let ct := hexDecode encHex
        match A.dec key iv ct tag with
        | some pt => .ok pt
        | none => .error "Unsupported state or unable to authenticate data"

/-!  Concrete fixtures used by the claim theorems and their witnesses. -/

/-- A fresh active checking account, as `createAccount` writes it. -/
def seqAccount : Account :=
  { id := 1, userId := 1, accountNumber := "0000000001",
    accountType := "checking", balance := 0, status := "active" }

/-- A store holding exactly that fresh account. -/
def dbSeq : DB :=
  { users := [], sessionRows := [], accounts := [seqAccount], transactions := [] }

/-- A stored user for the auth fixtures. -/
def userW : User :=
  { id := 1, email := "w@example.com", password := "hashed-pw",
    firstName := "Test", lastName := "User", phoneNumber := "1234567890",
    dateOfBirth := "1990-01-01", ssn := "enc-ssn", address := "123 Main St",
    city := "Test City", state := "CA", zipCode := "12345" }

/-- A store with one user and three pre-existing sessions for the user. -/
def dbAuth : DB :=
  { users := [userW]
    sessionRows :=
      [ { userId := 1, token := "tok-a", expiresAt := 1000 }
        , { userId := 1, token := "tok-b", expiresAt := 2000 }
        , { userId := 1, token := "tok-c", expiresAt := 3000 } ]
    accounts := []
    transactions := [] }

/-- A store with a session expiring 3 minutes from `now = 0` and another
expiring 10 minutes from `now = 0`. -/
def dbExpiry : DB :=
  { users := [userW]
    sessionRows :=
      [ { userId := 1, token := "tok3", expiresAt := 3 * 60 * 1000 }
        , { userId := 2, token := "tok10", expiresAt := 10 * 60 * 1000 } ]
    accounts := []
    transactions := [] }

/-- The trivial authenticated cipher used to instantiate the witnesses: the
ciphertext is the plaintext, the tag is empty. -/
def idAEAD : AEAD where
  enc := fun _ _ pt => (pt, [])
  dec := fun _ _ ct tag => if tag = [] then some ct else none
  enc_dec := by intro key iv pt; simp

/-- A trivial key-derivation function for the witnesses. -/
def kdfZero : String → Bytes → Bytes := fun _ _ => []

/-- A fully configured environment (both variables set), as the test suites
configure it. -/
def envW : CryptoEnv := { encryptionKey := some "test-key", encryptionSalt := some [] }

/-- The schedule in which both of two concurrent `fundAccount` calls read the
balance before either writes it: call 0 reads, call 1 reads, call 0 finishes,
call 1 finishes. -/
def lostUpdateSched : List Nat := [0, 1, 0, 0, 0, 1, 1, 1]

/-- An empty store. -/
def dbEmpty : DB := { users := [], sessionRows := [], accounts := [], transactions := [] }

/-- A signup request for a fresh email. -/
def signupInputW : SignupInput :=
  { email := "new@example.com", password := "Password123!@#", firstName := "New",
    lastName := "Person", phoneNumber := "9876543210", dateOfBirth := "1991-02-03",
    ssn := "987654321", address := "456 Oak St", city := "Town", state := "NY",
    zipCode := "54321" }

/-- The row `signup dbAuth signupInputW ...` stores (hash modelled as `"H"`,
encrypted ssn as `"E"`). -/
def createdUserW : User :=
  { id := 2, email := "new@example.com", password := "H", firstName := "New",
    lastName := "Person", phoneNumber := "9876543210", dateOfBirth := "1991-02-03",
    ssn := "E", address := "456 Oak St", city := "Town", state := "NY",
    zipCode := "54321" }

/-!  Helper lemmas. -/

/-- After deleting every row with token `t`, a lookup by token `t` is empty. -/
theorem find?_filter_token_ne (l : List SessionRow) (t : String) :
    (l.filter (fun s => s.token != t)).find? (fun s => s.token == t) = none := by
  rw [List.find?_eq_none]
  intro x hx
  rw [List.mem_filter] at hx
  simpa using hx.2

/-- After deleting every row of user `uid`, filtering for `uid` is empty. -/
theorem filter_userId_after_delete (l : List SessionRow) (uid : Nat) :
    (l.filter (fun s => s.userId != uid)).filter (fun s => s.userId == uid) = [] := by
  rw [List.filter_eq_nil_iff]
  intro x hx
  rw [List.mem_filter] at hx
  simpa using hx.2

/-!  Claim theorems. -/

/-- C5: immediately after a successful login for a principal, exactly one
`sessions` row exists for that principal — the row carrying the newly issued
token and the 7-day expiry — no matter how many rows existed before the
call. -/
theorem login_enforces_single_session (db : DB) (email pw : String)
    (verify : String → String → Bool) (newToken : String) (now : Millis) (u : User)
    (hu : findUserByEmail db email = some u) (hv : verify pw u.password = true) :
    (login db email pw verify newToken now).1.sessionRows.filter
        (fun s => s.userId == u.id)
      = [{ userId := u.id, token := newToken, expiresAt := now + sevenDaysMs }] ∧
    (login db email pw verify newToken now).2
      = .ok { user := sanitizeUser u, token := newToken } := by
  unfold login
  rw [hu]
  simp only [hv, if_true]
  refine ⟨?_, trivial⟩
  rw [List.filter_append, filter_userId_after_delete]
  simp

/-- Witness for C5: logging in while three sessions exist for the principal
leaves exactly the one new session. -/
theorem login_enforces_single_session_witness :
    (login dbAuth "w@example.com" "pw" (fun _ _ => true) "tok-new" 0).1.sessionRows.filter
        (fun s => s.userId == userW.id)
      = [{ userId := userW.id, token := "tok-new", expiresAt := 0 + sevenDaysMs }] ∧
    (login dbAuth "w@example.com" "pw" (fun _ _ => true) "tok-new" 0).2
      = .ok { user := sanitizeUser userW, token := "tok-new" } :=
  login_enforces_single_session dbAuth "w@example.com" "pw" (fun _ _ => true)
    "tok-new" 0 userW (by decide) rfl

/-- C6 (spec-modelled): session validation applies the fixed 5-minute buffer:
a stored session with `expiresAt ≤ now + 5 min` is treated as expired — the
row is deleted and the request resolves unauthenticated — while a session
strictly beyond the buffer resolves the principal. -/
theorem session_validation_buffer (db : DB) (token : String) (now : Millis)
    (srow : SessionRow)
    (hfind : db.sessionRows.find? (fun s => s.token == token) = some srow) :
    (srow.expiresAt ≤ now + fiveMinutesMs →
        (validateSession db true token now).2 = none ∧
        (validateSession db true token now).1.sessionRows.find?
            (fun s => s.token == token) = none) ∧
    (now + fiveMinutesMs < srow.expiresAt →
        validateSession db true token now = (db, some srow.userId)) := by
  constructor
  · intro hexp
    simp [validateSession, hfind, hexp, find?_filter_token_ne]
  · intro hexp
    simp [validateSession, hfind, not_le.mpr hexp]

/-- Witness for C6: with `now = 0`, the session expiring 3 minutes from now is
rejected and its row removed; the one expiring 10 minutes from now resolves
its principal. -/
theorem session_validation_buffer_witness :
    ((validateSession dbExpiry true "tok3" 0).2 = none ∧
      (validateSession dbExpiry true "tok3" 0).1.sessionRows.find?
          (fun s => s.token == "tok3") = none) ∧
    validateSession dbExpiry true "tok10" 0
      = (dbExpiry, some (2 : Nat)) :=
  ⟨(session_validation_buffer dbExpiry "tok3" 0
      { userId := 1, token := "tok3", expiresAt := 3 * 60 * 1000 }
      (by decide)).1 (by decide),
    (session_validation_buffer dbExpiry "tok10" 0
      { userId := 2, token := "tok10", expiresAt := 10 * 60 * 1000 }
      (by decide)).2 (by decide)⟩

/-- C7: `logout` returns `success=true, "Logged out successfully"` exactly
when a matching session row was deleted and the re-read confirmed absence (the
row is then gone); `success=false` with a "Failed to log out" message when a
token was presented but no row matched; and `success=true, "No active
session"` when no principal was present at all. -/
theorem logout_result_cases (db : DB) (t : String) :
    ((db.sessionRows.find? (fun s => s.token == t)).isSome →
        (logout db true (some t)).2.success = true ∧
        (logout db true (some t)).2.message = "Logged out successfully" ∧
        (logout db true (some t)).1.sessionRows.find? (fun s => s.token == t) = none) ∧
    (db.sessionRows.find? (fun s => s.token == t) = none →
        logout db true (some t)
          = (db,
              { success := false
                message := "Failed to log out - session may still be active" })) ∧
    logout db false none = (db, { success := true, message := "No active session" }) := by
  refine ⟨?_, ?_, rfl⟩
  · intro h
    obtain ⟨row, hrow⟩ := Option.isSome_iff_exists.mp h
    simp [logout, hrow, find?_filter_token_ne]
  · intro h
    simp [logout, h]

/-- Witness for C7: the three logout outcomes at a concrete store. -/
theorem logout_result_cases_witness :
    ((logout dbAuth true (some "tok-a")).2.success = true ∧
      (logout dbAuth true (some "tok-a")).2.message = "Logged out successfully" ∧
      (logout dbAuth true (some "tok-a")).1.sessionRows.find?
          (fun s => s.token == "tok-a") = none) ∧
    logout dbAuth true (some "tok-x")
      = (dbAuth,
          { success := false
            message := "Failed to log out - session may still be active" }) ∧
    logout dbAuth false none
      = (dbAuth, { success := true, message := "No active session" }) :=
  ⟨(logout_result_cases dbAuth "tok-a").1 (by decide),
    (logout_result_cases dbAuth "tok-x").2.1 (by decide),
    (logout_result_cases dbAuth "tok-x").2.2⟩

/-- After the compensating delete by account number, a lookup by that number
is empty. -/
theorem find?_filter_accountNumber (l : List Account) (n : String) :
    (l.filter (fun a => a.accountNumber != n)).find?
        (fun a => a.accountNumber == n) = none := by
  rw [List.find?_eq_none]
  intro x hx
  rw [List.mem_filter] at hx
  simpa using hx.2

/-- C8: in `createAccount`, when the insert succeeds but the immediate
re-fetch returns nothing, the orphaned row is deleted (no row with the new
account number remains) and the operation fails with the internal error; and
every successful `createAccount` returns the genuinely inserted row — zero
balance, `active` status, present in the store — never a fabricated
placeholder. -/
theorem createAccount_consistency (db : DB) (userId : Nat)
    (accountType accountNumber : String)
    (hnoconf : db.accounts.find?
        (fun a => a.userId == userId && a.accountType == accountType) = none)
    (hfresh : ∀ a ∈ db.accounts, a.accountNumber ≠ accountNumber) :
    ((createAccount db userId accountType accountNumber false).2
        = .error "Account was created but could not be retrieved. Please try again." ∧
      (createAccount db userId accountType accountNumber false).1.accounts.find?
          (fun a => a.accountNumber == accountNumber) = none) ∧
    ∀ refetchOk acct,
      (createAccount db userId accountType accountNumber refetchOk).2 = .ok acct →
      acct.balance = 0 ∧ acct.status = "active" ∧
        acct ∈ (createAccount db userId accountType accountNumber refetchOk).1.accounts := by
  have hpre : ∀ refetchOk : Bool, ¬(db.accounts.find?
      (fun a => a.userId == userId && a.accountType == accountType)).isSome := by
    intro _
    rw [hnoconf]
    simp
  constructor
  · constructor
    · simp [createAccount, hnoconf]
    · simp only [createAccount, hnoconf]
      simp [find?_filter_accountNumber]
  · intro refetchOk acct h
    have hnone : db.accounts.find? (fun a => a.accountNumber == accountNumber) = none := by
      rw [List.find?_eq_none]
      intro x hx
      simpa using hfresh x hx
    cases refetchOk with
    | false => simp [createAccount, hnoconf] at h
    | true =>
      simp [createAccount, hnoconf, List.find?_append, hnone, Option.none_or,
        List.find?_cons_of_pos] at h
      subst h
      refine ⟨rfl, rfl, ?_⟩
      simp [createAccount, hnoconf, List.find?_append, hnone, Option.none_or,
        List.find?_cons_of_pos]

/-- Witness for C8 at the empty store. -/
theorem createAccount_consistency_witness :
    ((createAccount dbEmpty 1 "checking" "1234567890" false).2
      = .error "Account was created but could not be retrieved. Please try again.") ∧
    ((createAccount dbEmpty 1 "checking" "1234567890" false).1.accounts.find?
        (fun a => a.accountNumber == "1234567890") = none) ∧
    ((⟨1, 1, "1234567890", "checking", 0, "active"⟩ : Account).balance = 0 ∧
      (⟨1, 1, "1234567890", "checking", 0, "active"⟩ : Account).status = "active" ∧
      (⟨1, 1, "1234567890", "checking", 0, "active"⟩ : Account)
        ∈ (createAccount dbEmpty 1 "checking" "1234567890" true).1.accounts) :=
  ⟨(createAccount_consistency dbEmpty 1 "checking" "1234567890" rfl (by simp [dbEmpty])).1.1,
    (createAccount_consistency dbEmpty 1 "checking" "1234567890" rfl (by simp [dbEmpty])).1.2,
    (createAccount_consistency dbEmpty 1 "checking" "1234567890" rfl
        (by simp [dbEmpty])).2 true ⟨1, 1, "1234567890", "checking", 0, "active"⟩ rfl⟩

/-- `jsRound` agrees with Mathlib's `round`. -/
theorem jsRound_eq_round (x : ℚ) : jsRound x = round x := (round_eq x).symm

/-- Rounding recovers an integer number of cents exactly. -/
theorem jsRound_intCast_div_mul (m : Int) : jsRound ((m : ℚ) / 100 * 100) = m := by
  rw [div_mul_cancel₀ _ (by norm_num : (100 : ℚ) ≠ 0), jsRound_eq_round, round_intCast]

/-- A deposit of `10.23` contributes exactly `1023` cents. -/
theorem jsRound_amount1023 : jsRound ((1023 : ℚ) / 100 * 100) = 1023 := by
  norm_num [jsRound]

/-- One `fundAccount` step on the single-account store: the balance advances
by exactly the rounded cents of the deposit. -/
theorem fundAccount_dbSeq_step (db : DB) (b : ℚ)
    (hacc : db.accounts = [{ seqAccount with balance := b }]) :
    (fundAccount db 1 1 (1023 / 100) true "card").1.accounts
      = [{ seqAccount with
            balance := ((jsRound (b * 100) + 1023 : Int) : ℚ) / 100 }] := by
  have hnle : ¬ (1023 : ℚ) / 100 ≤ 0 := by norm_num
  simp [fundAccount, hacc, seqAccount, hnle, jsRound_amount1023]
  norm_num [jsRound]

/-- After `n` deposits of `10.23` on the fresh account, the stored balance is
exactly `1023 · n` cents. -/
theorem fundRepeat_dbSeq_accounts (n : Nat) :
    (fundRepeat dbSeq 1 1 (1023 / 100) n).accounts
      = [{ seqAccount with balance := ((1023 * (n : Int) : Int) : ℚ) / 100 }] := by
  induction n with
  | zero =>
    show dbSeq.accounts = _
    norm_num [dbSeq, seqAccount]
  | succ n ih =>
    simp only [fundRepeat]
    rw [fundAccount_dbSeq_step _ _ ih, jsRound_intCast_div_mul]
    have hc : (1023 * (n : Int) + 1023 : Int) = 1023 * ((n + 1 : Nat) : Int) := by
      push_cast
      ring
    rw [hc]

/-- C3: every successful `fundAccount` computes the persisted balance in
integer cents — `(round(oldBalance·100) + round(amount·100)) / 100` — both in
the returned `newBalance` and in the stored account row; consequently 200
sequential deposits of `10.23` on a zero-balance account leave a balance of
exactly `2046.00`. -/
theorem fundAccount_cent_arithmetic
    (db : DB) (userId accountId : Nat) (amount : ℚ) (srcType : String)
    (account : Account)
    (hfind : db.accounts.find? (fun a => a.id == accountId && a.userId == userId)
        = some account)
    (hactive : account.status = "active") (hpos : 0 < amount) :
    ((fundAccount db userId accountId amount true srcType).2.map
        (fun r => r.newBalance)
      = .ok (((jsRound (account.balance * 100) + jsRound (amount * 100) : Int) : ℚ)
          / 100)) ∧
    (∀ a ∈ (fundAccount db userId accountId amount true srcType).1.accounts,
        a.id = accountId →
        a.balance
          = ((jsRound (account.balance * 100) + jsRound (amount * 100) : Int) : ℚ)
              / 100) ∧
    (fundRepeat dbSeq 1 1 (1023 / 100) 200).accounts.map (fun a => a.balance)
      = [2046] := by
  have hnle : ¬ amount ≤ 0 := not_le.mpr hpos
  refine ⟨?_, ?_, ?_⟩
  · simp [fundAccount, hfind, hnle, hactive, Except.map]
  · intro a ha hid
    simp [fundAccount, hfind, hnle, hactive] at ha
    obtain ⟨b, hb, hba⟩ := ha
    subst hba
    by_cases hbid : b.id = accountId
    · simp [hbid]
    · simp [hbid] at hid ⊢
  · rw [fundRepeat_dbSeq_accounts]
    norm_num

/-- Witness for C3 at the fresh single-account store with a deposit of 10. -/
theorem fundAccount_cent_arithmetic_witness :
    ((fundAccount dbSeq 1 1 10 true "card").2.map (fun r => r.newBalance)
      = .ok (((jsRound (seqAccount.balance * 100) + jsRound ((10 : ℚ) * 100) : Int) : ℚ)
          / 100)) ∧
    (fundRepeat dbSeq 1 1 (1023 / 100) 200).accounts.map (fun a => a.balance)
      = [2046] :=
  ⟨(fundAccount_cent_arithmetic dbSeq 1 1 10 "card" seqAccount rfl rfl (by norm_num)).1,
    (fundAccount_cent_arithmetic dbSeq 1 1 10 "card" seqAccount rfl rfl
      (by norm_num)).2.2⟩

/-- C2 (code bug): the deployed `fundAccount` performs no amount-bounds
validation — its schema only requires a positive number — so a deposit of
`5.00` (below the documented `10.00` minimum) and one of `15000.00` (above
the documented `10000.00` maximum) both succeed, appending a completed
deposit transaction and updating the balance, instead of being rejected with
the minimum- and maximum-amount messages that the spec and the repository's own
funding-limits test require. -/
theorem fundAccount_accepts_out_of_bounds_amounts :
    (fundAccount dbSeq 1 1 5 true "card").2
      = .ok ⟨⟨1, 1, "deposit", 5, "Funding from card", "completed"⟩, 5⟩ ∧
    (fundAccount dbSeq 1 1 5 true "card").1.transactions.length = 1 ∧
    (fundAccount dbSeq 1 1 5 true "card").1.accounts.map (fun a => a.balance)
      = [5] ∧
    (fundAccount dbSeq 1 1 15000 true "card").2.map (fun r => r.newBalance)
      = .ok 15000 := by
  refine ⟨?_, ?_, ?_, ?_⟩ <;>
    norm_num [fundAccount, dbSeq, seqAccount, nextTransactionId, jsRound,
      Except.map]
  all_goals decide

/-- C1 (code bug): the interleaving in which both of two concurrent
`fundAccount(10)` calls on a fresh account read the balance before either
writes it is a complete execution (every call finishes, two transaction rows
exist) yet leaves the balance at `10.00`, not `N·A = 20.00`: the unserialized
read-modify-write loses an update. -/
theorem fundAccount_concurrent_lost_update :
    (runSched 10 (freshConc 2) lostUpdateSched).calls.all (fun c => c.pc == 4) = true ∧
    (runSched 10 (freshConc 2) lostUpdateSched).txCount = 2 ∧
    (runSched 10 (freshConc 2) lostUpdateSched).balance = 10 ∧
    (runSched 10 (freshConc 2) lostUpdateSched).balance ≠ 2 * 10 := by
  refine ⟨?_, ?_, ?_, ?_⟩
  · norm_num [runSched, stepCall, freshConc, lostUpdateSched, jsRound]
    decide
  · norm_num [runSched, stepCall, freshConc, lostUpdateSched, jsRound]
  · norm_num [runSched, stepCall, freshConc, lostUpdateSched, jsRound]
  · norm_num [runSched, stepCall, freshConc, lostUpdateSched, jsRound]

/-- Decoding a hex digit emitted by the encoder recovers its value. -/
theorem hexVal_hexDigitChar : ∀ n : Fin 16, hexVal (hexDigitChar n) = some n := by
  decide

/-- Hex digits are never the separator `:`. -/
theorem hexDigitChar_ne_colon : ∀ n : Fin 16, hexDigitChar n ≠ ':' := by
  decide

/-- A hex-encoded byte string never contains the separator `:`. -/
theorem colon_not_mem_hexEncode (bs : Bytes) : ':' ∉ hexEncode bs := by
  induction bs with
  | nil => simp [hexEncode]
  | cons b rest ih =>
    simp only [hexEncode, List.mem_cons, not_or]
    exact ⟨Ne.symm (hexDigitChar_ne_colon _), Ne.symm (hexDigitChar_ne_colon _), ih⟩

/-- `Buffer.from(buffer.toString("hex"), "hex")` is the identity. -/
theorem hexDecode_hexEncode (bs : Bytes) : hexDecode (hexEncode bs) = bs := by
  induction bs with
  | nil => rfl
  | cons b rest ih =>
    simp only [hexEncode, hexDecode, hexVal_hexDigitChar, ih]
    refine List.cons_eq_cons.mpr ⟨Fin.ext ?_, rfl⟩
    show 16 * (b.val / 16) + b.val % 16 = b.val
    omega

/-- Splitting a separator-free string yields that single piece. -/
theorem splitOnChar_of_not_mem (sep : Char) (l : List Char) (h : sep ∉ l) :
    splitOnChar sep l = [l] := by
  induction l with
  | nil => rfl
  | cons c cs ih =>
    rw [List.mem_cons, not_or] at h
    rw [splitOnChar, if_neg (fun hc => h.1 hc.symm), ih h.2]

/-- Splitting peels off a separator-free head segment. -/
theorem splitOnChar_append (sep : Char) (a rest : List Char) (h : sep ∉ a) :
    splitOnChar sep (a ++ sep :: rest) = a :: splitOnChar sep rest := by
  induction a with
  | nil => simp [splitOnChar]
  | cons c cs ih =>
    rw [List.mem_cons, not_or] at h
    rw [List.cons_append, splitOnChar, if_neg (fun hc => h.1 hc.symm), ih h.2]

/-- C4: with the environment configured (`ENCRYPTION_KEY` and a fixed
`ENCRYPTION_SALT` present), the encrypt-then-decrypt round trip is the
identity on every non-empty plaintext, for any authenticated cipher
satisfying its contract and any deterministic key-derivation function. -/
theorem encrypt_decrypt_roundtrip (A : AEAD) (kdf : String → Bytes → Bytes)
    (env : CryptoEnv) (k : String) (s rs1 rs2 iv ssn : Bytes)
    (hk : env.encryptionKey = some k) (hs : env.encryptionSalt = some s)
    (hne : ssn ≠ []) :
    (encryptSSN A kdf env rs1 iv ssn).bind (decryptSSN A kdf env rs2)
      = .ok ssn := by
  have hkey1 : getEncryptionKey kdf env rs1 = .ok (kdf k s) := by
    simp [getEncryptionKey, getSalt, hk, hs]
  have hkey2 : getEncryptionKey kdf env rs2 = .ok (kdf k s) := by
    simp [getEncryptionKey, getSalt, hk, hs]
  have hssn : ssn.isEmpty = false := by
    cases ssn with
    | nil => exact absurd rfl hne
    | cons a l => rfl
  rw [encryptSSN, hssn]
  simp only [Bool.false_eq_true, if_false, hkey1]
  rw [Except.bind]
  have hfe : (hexEncode iv ++ ':' :: hexEncode (A.enc (kdf k s) iv ssn).1
      ++ ':' :: hexEncode (A.enc (kdf k s) iv ssn).2).isEmpty = false := by
    cases hexEncode iv <;> rfl
  rw [decryptSSN, hfe]
  simp only [Bool.false_eq_true, if_false]
  rw [List.append_assoc, List.cons_append]
  rw [splitOnChar_append _ _ _ (colon_not_mem_hexEncode iv),
    splitOnChar_append _ _ _ (colon_not_mem_hexEncode _),
    splitOnChar_of_not_mem _ _ (colon_not_mem_hexEncode _)]
  simp only [List.length_cons, List.length_nil, List.getD_cons_zero,
    List.getD_cons_succ, hkey2]
  rw [if_neg (by norm_num)]
  simp only [hexDecode_hexEncode, A.enc_dec]

/-- Witness for C4: the round trip at the trivial witness cipher and a
configured environment, on the one-byte plaintext `1`. -/
theorem encrypt_decrypt_roundtrip_witness :
    (encryptSSN idAEAD kdfZero envW [] [(0 : Byte)] [(49 : Byte)]).bind
        (decryptSSN idAEAD kdfZero envW []) = .ok [(49 : Byte)] :=
  encrypt_decrypt_roundtrip idAEAD kdfZero envW "test-key" [] [] [] [(0 : Byte)]
    [(49 : Byte)] rfl rfl (by simp)

/-- C9 counterexample: the input `"::"` splits into exactly three segments,
all of them empty, yet `decryptSSN` does not fail with the malformed-format
error — the format check counts segments only, so the call proceeds past it
to key derivation and decryption (succeeding outright under the witness
cipher). -/
theorem decrypt_empty_segments_pass_format_check :
    splitOnChar ':' [':', ':'] = [[], [], []] ∧
    decryptSSN idAEAD kdfZero envW [] [':', ':'] = .ok [] ∧
    decryptSSN idAEAD kdfZero envW [] [':', ':']
      ≠ .error "Invalid encrypted SSN format" := by
  have h2 : decryptSSN idAEAD kdfZero envW [] [':', ':'] = .ok [] := rfl
  exact ⟨rfl, h2, by rw [h2]; exact fun hc => Except.noConfusion hc⟩

/-- The only error `getEncryptionKey` produces is the missing-key message. -/
theorem getEncryptionKey_error (kdf : String → Bytes → Bytes) (env : CryptoEnv)
    (rs : Bytes) (e : String) (h : getEncryptionKey kdf env rs = .error e) :
    e = "ENCRYPTION_KEY environment variable is not set" := by
  unfold getEncryptionKey at h
  cases henv : env.encryptionKey with
  | none =>
    rw [henv] at h
    injection h with h'
    exact h'.symm
  | some k =>
    rw [henv] at h
    exact absurd h (by simp)

/-- C9 (amended): `decryptSSN` fails with the malformed-format error exactly
when the input is non-empty and splitting it on `:` does not yield exactly
three segments; the non-emptiness of the segments is never checked, so three
segments with empty parts pass the format check and proceed to cryptographic
processing. -/
theorem decrypt_malformed_iff (A : AEAD) (kdf : String → Bytes → Bytes)
    (env : CryptoEnv) (rs : Bytes) (field : List Char) :
    decryptSSN A kdf env rs field = .error "Invalid encrypted SSN format" ↔
      field ≠ [] ∧ (splitOnChar ':' field).length ≠ 3 := by
  by_cases h0 : field = []
  · subst h0
    constructor
    · intro hL
      have hE : decryptSSN A kdf env rs []
          = .error "Encrypted SSN must be a non-empty string" := rfl
      rw [hE] at hL
      injection hL with h'
      exact absurd h' (by decide)
    · rintro ⟨hc, -⟩
      exact absurd rfl hc
  · have hb : field.isEmpty = false := by
      cases field with
      | nil => exact absurd rfl h0
      | cons c cs => rfl
    constructor
    · intro hL
      refine ⟨h0, ?_⟩
      intro h3
      rw [decryptSSN, hb] at hL
      simp only [Bool.false_eq_true, if_false] at hL
      rw [if_neg (by simp [h3])] at hL
      split at hL
      · rename_i e heq
        have he := getEncryptionKey_error kdf env rs e heq
        subst he
        injection hL with h'
        exact absurd h' (by decide)
      · split at hL
        · exact absurd hL (by simp)
        · injection hL with h'
          exact absurd h' (by decide)
    · rintro ⟨-, h3⟩
      rw [decryptSSN, hb]
      simp only [Bool.false_eq_true, if_false]
      rw [if_pos h3]

/-- C10: the user object returned by a successful signup and by a successful
login is `{ ...user, password: undefined }` — its password field is `none`
while it is the sanitized image of a stored user row, and sanitizing passes
every other stored field through unchanged. -/
theorem auth_responses_omit_password_hash
    (db : DB) (input : SignupInput) (hash encSSN : String → String)
    (tokS tokL : String) (now : Millis) (email pw : String)
    (verify : String → String → Bool) (r1 r2 : AuthSuccess)
    (h1 : (signup db input hash encSSN tokS now).2 = .ok r1)
    (h2 : (login db email pw verify tokL now).2 = .ok r2) :
    r1.user.password = none ∧ r2.user.password = none ∧
    (∃ u ∈ (signup db input hash encSSN tokS now).1.users,
        r1.user = sanitizeUser u) ∧
    (∃ u, findUserByEmail db email = some u ∧ r2.user = sanitizeUser u) ∧
    (∀ u : User, (sanitizeUser u).password = none ∧
      (sanitizeUser u).id = u.id ∧ (sanitizeUser u).email = u.email ∧
      (sanitizeUser u).firstName = u.firstName ∧
      (sanitizeUser u).lastName = u.lastName ∧
      (sanitizeUser u).phoneNumber = u.phoneNumber ∧
      (sanitizeUser u).dateOfBirth = u.dateOfBirth ∧
      (sanitizeUser u).ssn = u.ssn ∧ (sanitizeUser u).address = u.address ∧
      (sanitizeUser u).city = u.city ∧ (sanitizeUser u).state = u.state ∧
      (sanitizeUser u).zipCode = u.zipCode) := by
  have hlogin : ∃ u, findUserByEmail db email = some u ∧ r2 = ⟨sanitizeUser u, tokL⟩ := by
    cases hfind : findUserByEmail db email with
    | none =>
      unfold login at h2
      rw [hfind] at h2
      simp at h2
    | some u =>
      unfold login at h2
      rw [hfind] at h2
      by_cases hv : verify pw u.password = true
      · simp only [hv, if_true] at h2
        simp only [Except.ok.injEq] at h2
        exact ⟨u, rfl, h2.symm⟩
      · simp only [Bool.not_eq_true] at hv
        simp [hv] at h2
  have hsignup : ∃ u ∈ (signup db input hash encSSN tokS now).1.users,
      r1 = ⟨sanitizeUser u, tokS⟩ := by
    cases hfind : findUserByEmail db input.email with
    | some u =>
      unfold signup at h1
      rw [hfind] at h1
      simp at h1
    | none =>
      have hrefetch : findUserByEmail db input.email = none := hfind
      unfold signup at h1 ⊢
      rw [hfind] at h1 ⊢
      have hnone : db.users.find? (fun u => u.email == input.email) = none := hfind
      have hfound : findUserByEmail
          { db with users := db.users ++
              [{ id := nextUserId db
                 email := input.email
                 password := hash input.password
                 firstName := input.firstName
                 lastName := input.lastName
                 phoneNumber := input.phoneNumber
                 dateOfBirth := input.dateOfBirth
                 ssn := encSSN input.ssn
                 address := input.address
                 city := input.city
                 state := input.state
                 zipCode := input.zipCode }] } input.email
          = some
              { id := nextUserId db
                email := input.email
                password := hash input.password
                firstName := input.firstName
                lastName := input.lastName
                phoneNumber := input.phoneNumber
                dateOfBirth := input.dateOfBirth
                ssn := encSSN input.ssn
                address := input.address
                city := input.city
                state := input.state
                zipCode := input.zipCode } := by
        unfold findUserByEmail
        simp [List.find?_append, hnone, Option.none_or]
      simp only [hfound, Except.ok.injEq] at h1 ⊢
      refine ⟨_, ?_, h1.symm⟩
      simp
  obtain ⟨u2, hu2, hr2⟩ := hlogin
  obtain ⟨u1, hu1, hr1⟩ := hsignup
  subst hr1
  subst hr2
  exact ⟨rfl, rfl, ⟨u1, hu1, rfl⟩, ⟨u2, hu2, rfl⟩, fun u =>
    ⟨rfl, rfl, rfl, rfl, rfl, rfl, rfl, rfl, rfl, rfl, rfl, rfl⟩⟩

/-- Witness for C10: the sanitized users returned by a concrete signup and a
concrete login have no password field. -/
theorem auth_responses_omit_password_hash_witness :
    (sanitizeUser createdUserW).password = none ∧
    (sanitizeUser userW).password = none :=
  ⟨(auth_responses_omit_password_hash dbAuth signupInputW (fun _ => "H")
      (fun _ => "E") "t1" "t2" 0 "w@example.com" "pw" (fun _ _ => true)
      ⟨sanitizeUser createdUserW, "t1"⟩ ⟨sanitizeUser userW, "t2"⟩
      rfl rfl).1,
    (auth_responses_omit_password_hash dbAuth signupInputW (fun _ => "H")
      (fun _ => "E") "t1" "t2" 0 "w@example.com" "pw" (fun _ _ => true)
      ⟨sanitizeUser createdUserW, "t1"⟩ ⟨sanitizeUser userW, "t2"⟩
      rfl rfl).2.1⟩

end Bank


